import Mathlib

/-!
Verification development for the product-catalog read-through cache of the
e-commerce backend (`backend/controllers/productController.js`).

The controller is embedded shallowly: each Express handler becomes a pure
Lean function from its request data and an explicit state (database contents,
cache contents, current time in seconds) to a result, a successor state and a
trace of the effects it performed.  The data-access layer (Mongoose) is
modelled by pure list operations on the database component plus an explicit
stream of booleans saying, call by call, whether the data-access call
succeeds or throws (`callOk`); an exhausted stream means every call succeeds.
The cache (the `node-cache` package, whose source is not part of this
repository) is modelled from the spec's CacheStore contract.
-/

namespace ECommerceEco

/-- A product review subdocument: `{ name, rating, comment, user }`
(controller lines 157–162; `user` is the reviewer's id). -/
structure Review where
  user : Nat
  name : String
  rating : Int
  comment : String
deriving DecidableEq, Repr

/-- A product document as the controller reads and writes it.  The schema file
(`models/productModel.js`) is not under `src/`; the fields are the ones the
controller itself touches.  `rating` is the computed average rating, kept as a
rational number in place of a JS float. -/
structure ProductData where
  id : Nat
  user : Nat
  name : String
  price : Int
  image : String
  brand : String
  category : String
  countInStock : Int
  numReviews : Nat
  rating : Rat
  description : String
  reviews : List Review
deriving DecidableEq, Repr

/-- The body of a `PUT /api/products/:id` request (controller lines 98–99). -/
structure UpdateBody where
  name : String
  price : Int
  description : String
  image : String
  brand : String
  category : String
  countInStock : Int
deriving DecidableEq, Repr

/-- The authenticated user visible to the handlers (`req.user`). -/
structure UserCtx where
  id : Nat
  name : String
deriving DecidableEq, Repr

/-- The body of a `POST /api/products/:id/reviews` request (line 143);
`rating` is already numeric, standing for `Number(rating)`. -/
structure ReviewBody where
  rating : Int
  comment : String
deriving DecidableEq, Repr

/-- The query parameters of `GET /api/products`: raw, possibly absent
strings, exactly what `req.query` delivers. -/
structure ListReq where
  pageNumber : Option String
  keyword : Option String
deriving DecidableEq, Repr

/-- The paginated list response object `{ products, page, pages }` built at
controller line 43. -/
structure ProductsResponse where
  products : List ProductData
  page : Int
  pages : Nat
deriving DecidableEq, Repr

/-- A value held in the cache.  `snapshot` marks a payload that went through
the `JSON.parse(JSON.stringify(·))` round-trip of line 46 (a deep,
reference-free plain copy); `liveDocs` marks the raw result of a data-access
call stored without that normalization (line 199). -/
inductive CacheVal where
  | snapshot (r : ProductsResponse)
  | liveDocs (ps : List ProductData)
deriving DecidableEq, Repr

/-- Whether a cached value is a deep reference-free snapshot rather than the
data-access layer's own live representation. -/
def isSnapshot : CacheVal → Bool
  | .snapshot _ => true
  | .liveDocs _ => false

/-- A response body sent with `res.json(...)`. -/
inductive Body where
  | productsPage (r : ProductsResponse)
  | productList (ps : List ProductData)
  | product (p : ProductData)
  | message (m : String)
deriving DecidableEq, Repr

/-- The top-level JSON object keys of a response body, where the body is an
object literal written in the controller (`{ products, page, pages }` at line
43, `{ message: ... }` at lines 132 and 175).  Bodies serialized from model
documents are not modelled down to their keys. -/
def bodyKeys? : Body → Option (List String)
  | .productsPage _ => some ["products", "page", "pages"]
  | .productList _ => none
  | .product _ => none
  | .message _ => some ["message"]

/-- The value of the `X-Cache` diagnostic header (lines 22, 27, 190, 194). -/
inductive XCache where
  | hit
  | miss
deriving DecidableEq, Repr

/-- An error thrown by a handler and surfaced by the error middleware:
`res.status(404); throw ...`, `res.status(400); throw ...`, or a data-access
(Mongoose) rejection propagated by `asyncHandler`. -/
inductive HErr where
  | notFound (msg : String)
  | badRequest (msg : String)
  | dataAccess
deriving DecidableEq, Repr

/-- A successful HTTP response: status code, optional `X-Cache` header, body. -/
structure HttpOk where
  status : Nat
  xCache : Option XCache
  body : Body
deriving DecidableEq, Repr

/-- The outcome of one handler invocation. -/
inductive HRes where
  | ok (r : HttpOk)
  | err (e : HErr)
deriving DecidableEq, Repr

/-- Modelled from the spec: the `node-cache` TTL is in seconds and the store
keeps one entry per key with an absolute expiry instant (`storedAt + ttl`). -/
structure CacheEntry where
  value : CacheVal
  expiresAt : Nat
deriving DecidableEq, Repr

/-- The cache contents: an association list, first binding for a key wins, so
prepending a binding is insert-or-overwrite. -/
abbrev CacheMap := List (String × CacheEntry)

/-- The whole observable state: database contents, cache contents and the
current time in seconds. -/
structure St where
  db : List ProductData
  cache : CacheMap
  now : Nat
deriving DecidableEq, Repr

/-- One observable effect of a handler, in order of occurrence: a data-access
read (`countDocuments` / `find` / `findById`), a data-access write (`save` /
`deleteOne`), a `cache.flushAll()`, a `cache.set(key, ...)`, or sending the
success response. -/
inductive Ev where
  | dbRead
  | dbWrite
  | cacheFlush
  | cacheSet (key : String)
  | respond
deriving DecidableEq, Repr

/-- The full outcome of one handler invocation: result, successor state and
ordered effect trace. -/
structure HandlerOut where
  result : HRes
  state : St
  events : List Ev
deriving DecidableEq, Repr

/-- Consume one outcome from the data-access success stream; an exhausted
stream means the call succeeds. -/
def callOk : List Bool → Bool × List Bool
  | [] => (true, [])
  | b :: t => (b, t)

/-! ### Number parsing (JS `Number(...)` on query strings)

`jsNumber? s` is the modelled value of `Number(s)` on the decimal-integer
fragment: `""` is `0`, an optional `-` sign followed by decimal digits is the
signed value, everything else is `none` (standing for `NaN`).  Inputs outside
this fragment (floats, exponents, hex) are outside the modelled domain. -/

/-- The numeric value of one decimal digit character, `none` otherwise. -/
def digitVal? (c : Char) : Option Nat :=
  if '0' ≤ c ∧ c ≤ '9' then some (c.toNat - 48) else none

/-- The value of a nonempty all-digit string of characters, `none` otherwise. -/
def digitsVal? : List Char → Option Nat
  | [] => none
  | [c] => digitVal? c
  | c :: rest =>
    match digitVal? c, digitsVal? rest with
    | some d, some v => some (d * 10 ^ rest.length + v)
    | _, _ => none

/-- Modelled `Number(s)` for decimal-integer strings (see above). -/
def jsNumber? (s : String) : Option Int :=
  match s.data with
  | [] => some 0
  | '-' :: rest => (digitsVal? rest).map (fun n => -(n : Int))
  | l => (digitsVal? l).map (fun n => (n : Int))

/-! ### Decimal rendering (JS template interpolation of the page number) -/

/-- One decimal digit as a character. -/
def digitChar : Nat → Char
  | 0 => '0'
  | 1 => '1'
  | 2 => '2'
  | 3 => '3'
  | 4 => '4'
  | 5 => '5'
  | 6 => '6'
  | 7 => '7'
  | 8 => '8'
  | _ => '9'

/-- Fuel-driven decimal digit accumulation (most significant digit first once
the accumulator is flushed); structural in the fuel so that it reduces in the
kernel. -/
def natDigsAux : Nat → Nat → List Char → List Char
  | 0, _, acc => acc
  | fuel + 1, n, acc =>
    if n < 10 then digitChar n :: acc
    else natDigsAux fuel (n / 10) (digitChar (n % 10) :: acc)

/-- The decimal digit characters of a natural number, e.g. `natDigs 12 =
['1', '2']`. -/
def natDigs (n : Nat) : List Char := natDigsAux (n + 1) n []

/-- The characters JS template interpolation produces for an integer-valued
number: optional `-` sign followed by decimal digits. -/
def intRepr (i : Int) : List Char :=
  if i < 0 then '-' :: natDigs i.natAbs else natDigs i.toNat

/-- The same rendering as a string. -/
def intReprStr (i : Int) : String := ⟨intRepr i⟩

/-! ### Cache store, modelled from the spec

The `node-cache` package is a dependency, not code of this repository, so its
behavior is modelled from the spec's CacheStore contract (§4.1): `has` is true
iff an entry exists and is live (`now < storedAt + ttl`), `get` returns the
stored value iff live and otherwise behaves as absent, `set` inserts or
overwrites resetting the expiry clock to `now + ttl`, and `flushAll` removes
every entry. -/

/-- The cache construction `new NodeCache({ stdTTL: 300 })` at controller
line 6: the default time-to-live, in seconds, hard-coded to 300. -/
def stdTTL : Nat := 300

/-- Raw association-list lookup of the entry bound to a key. -/
def cacheFind? : CacheMap → String → Option CacheEntry
  | [], _ => none
  | (k', e) :: t, k => if k' = k then some e else cacheFind? t k

/-- Modelled from the spec: `get` returns the stored value while the entry is
live (`now < expiresAt`), and behaves as absent otherwise. -/
def cacheGet? (c : CacheMap) (now : Nat) (k : String) : Option CacheVal :=
  match cacheFind? c k with
  | some e => if now < e.expiresAt then some e.value else none
  | none => none

/-- Modelled from the spec: `has` is true iff the entry exists and is live;
by construction it agrees with `get` returning a value. -/
def cacheHas (c : CacheMap) (now : Nat) (k : String) : Bool :=
  (cacheGet? c now k).isSome

/-- Modelled from the spec: `set` inserts or overwrites the binding for the
key, with expiry `now + stdTTL`; prepending is overwrite because lookup takes
the first binding. -/
def cacheSet (c : CacheMap) (k : String) (v : CacheVal) (now : Nat) : CacheMap :=
  (k, ⟨v, now + stdTTL⟩) :: c

/-- Modelled from the spec: `flushAll` removes every entry. -/
def flushAll : CacheMap := []

/-! ### Query-parameter normalization and key derivation (lines 12–17) -/

/-- `const page = Number(req.query.pageNumber) || 1` (line 13): a missing
parameter (`Number(undefined)` is `NaN`), a non-numeric one, or one whose
value is `0` all normalize to `1`. -/
def pageOf (q : Option String) : Int :=
  match q with
  | none => 1
  | some s =>
    match jsNumber? s with
    | none => 1
    | some n => if n = 0 then 1 else n

/-- `const keywordStr = req.query.keyword ? req.query.keyword.toString() : ''`
(line 14): a missing or empty keyword normalizes to the empty string. -/
def keywordStrOf (q : Option String) : String :=
  match q with
  | none => ""
  | some s => s

/-- The cache key template of line 17:
`products_page_${page}_keyword_${keywordStr}`. -/
def cacheKey (page : Int) (keywordStr : String) : String :=
  "products_page_" ++ intReprStr page ++ "_keyword_" ++ keywordStr

/-- The fixed key of the top-products query (line 186). -/
def topKey : String := "top_products"

/-! ### The keyword filter and the backing query (lines 29–43) -/

/-- Lower-casing, modelling the `i` flag of the `$regex` filter. -/
def lowerChars (l : List Char) : List Char := l.map Char.toLower

/-- Whether the needle is a leading segment of the haystack. -/
def leadMatch : List Char → List Char → Bool
  | [], _ => true
  | _ :: _, [] => false
  | a :: as, b :: bs => a == b && leadMatch as bs

/-- Whether the needle occurs contiguously anywhere in the haystack. -/
def isInfixB (needle : List Char) : List Char → Bool
  | [] => leadMatch needle []
  | c :: t => leadMatch needle (c :: t) || isInfixB needle t

/-- The `{ name: { $regex: keyword, $options: 'i' } }` match (lines 30–35),
modelled for plain (metacharacter-free) keywords as case-insensitive
substring containment in the product name. -/
def nameMatches (kw : String) (p : ProductData) : Bool :=
  isInfixB (lowerChars kw.data) (lowerChars p.name.data)

/-- The filter object of lines 29–36: `req.query.keyword ? {...} : {}` — a
missing or empty (falsy) keyword gives the unfiltered query. -/
def keywordFilter (q : Option String) : Option String :=
  match q with
  | none => none
  | some s => if s = "" then none else some s

/-- The documents matching the filter, in database order (`countDocuments`
and `find` both receive this same filter). -/
def matchedProducts (q : Option String) (db : List ProductData) : List ProductData :=
  match keywordFilter q with
  | none => db
  | some kw => db.filter (fun p => nameMatches kw p)

/-! ### Configuration (§6) -/

/-- The environment configuration relevant to the cache subsystem, as parsed
numeric values: `PAGINATION_LIMIT`, and a hypothetical TTL override variable
which the code never reads. -/
structure Config where
  paginationLimit : Option Nat
  cacheTtlSeconds : Option Nat
deriving DecidableEq, Repr

/-- `const pageSize = process.env.PAGINATION_LIMIT || 8` (line 12). -/
def pageSizeOfCfg (c : Config) : Nat := c.paginationLimit.getD 8

/-- The default TTL the cache is constructed with: line 6 hard-codes
`stdTTL: 300` and reads no environment variable, so the configured value is
300 regardless of the environment. -/
def stdTTLOfCfg (_ : Config) : Nat := stdTTL

/-- `Math.ceil(count / pageSize)` for natural operands with `pageSize > 0`
(line 43); division by zero is outside the modelled configurations. -/
def jsCeilDiv (count pageSize : Nat) : Nat := (count + pageSize - 1) / pageSize

/-! ### Handlers -/

/-- The body a cache hit responds with: `res.json(cache.get(cacheKey))`. -/
def bodyOfCacheVal : CacheVal → Body
  | .snapshot r => .productsPage r
  | .liveDocs ps => .productList ps

/-- The response the miss path of `getProducts` computes from the database
(lines 38–43): the count of matching documents, the page of matching
documents after `.limit(pageSize).skip(pageSize * (page - 1))`, and
`pages = Math.ceil(count / pageSize)`. -/
def freshListResponse (cfg : Config) (req : ListReq) (db : List ProductData) : ProductsResponse :=
  let pageSize := pageSizeOfCfg cfg
  let page := pageOf req.pageNumber
  let ms := matchedProducts req.keyword db
  { products := (ms.drop ((pageSize : Int) * (page - 1)).toNat).take pageSize
    page := page
    pages := jsCeilDiv ms.length pageSize }

/-- `getProducts` (lines 11–52): derive the key from the normalized
parameters; on a live cached entry answer it with `X-Cache: HIT`; otherwise
count and fetch from the database (two data-access calls), store the
JSON-round-tripped snapshot, and answer it with `X-Cache: MISS`. -/
def getProducts (cfg : Config) (req : ListReq) (dbOks : List Bool) (st : St) : HandlerOut :=
  match cacheGet? st.cache st.now (cacheKey (pageOf req.pageNumber) (keywordStrOf req.keyword)) with
  | some v =>
    { result := .ok ⟨200, some .hit, bodyOfCacheVal v⟩, state := st, events := [.respond] }
  | none =>
    if (callOk dbOks).1 then
      if (callOk (callOk dbOks).2).1 then
        { result := .ok ⟨200, some .miss, .productsPage (freshListResponse cfg req st.db)⟩
          state := { st with
            cache := cacheSet st.cache (cacheKey (pageOf req.pageNumber) (keywordStrOf req.keyword))
              (.snapshot (freshListResponse cfg req st.db)) st.now }
          events := [.dbRead, .dbRead,
            .cacheSet (cacheKey (pageOf req.pageNumber) (keywordStrOf req.keyword)), .respond] }
      else { result := .err .dataAccess, state := st, events := [.dbRead] }
    else { result := .err .dataAccess, state := st, events := [] }

/-- `Product.findById` on the modelled database. -/
def findById (db : List ProductData) (pid : Nat) : Option ProductData :=
  db.find? (fun p => p.id == pid)

/-- `product.save()` after mutating a fetched document in place: replace the
document with that id. -/
def saveReplace (db : List ProductData) (p' : ProductData) : List ProductData :=
  db.map (fun q => if q.id == p'.id then p' else q)

/-- `getProductById` (lines 57–70): one data-access read, no cache
interaction at all; 404 when the id matches no product. -/
def getProductById (pid : Nat) (dbOks : List Bool) (st : St) : HandlerOut :=
  if (callOk dbOks).1 then
    match findById st.db pid with
    | some p => { result := .ok ⟨200, none, .product p⟩, state := st, events := [.dbRead, .respond] }
    | none => { result := .err (.notFound "Product not found"), state := st, events := [.dbRead] }
  else { result := .err .dataAccess, state := st, events := [] }

/-- The sample product of lines 76–86; `newId` stands for the id the data
store assigns on save, and the rating starts at the schema default 0 (the
schema file is not under `src/`). -/
def sampleProduct (userId newId : Nat) : ProductData :=
  { id := newId
    user := userId
    name := "Sample name"
    price := 0
    image := "/images/sample.jpg"
    brand := "Sample brand"
    category := "Sample category"
    countInStock := 0
    numReviews := 0
    rating := 0
    description := "Sample description"
    reviews := [] }

/-- `createProduct` (lines 75–92): save the sample product, then
`cache.flushAll()`, then respond `201` with the created product. -/
def createProduct (userId newId : Nat) (dbOks : List Bool) (st : St) : HandlerOut :=
  if (callOk dbOks).1 then
    { result := .ok ⟨201, none, .product (sampleProduct userId newId)⟩
      state := { st with db := st.db ++ [sampleProduct userId newId], cache := flushAll }
      events := [.dbWrite, .cacheFlush, .respond] }
  else { result := .err .dataAccess, state := st, events := [] }

/-- The in-place field assignments of lines 104–110. -/
def applyUpdate (p : ProductData) (b : UpdateBody) : ProductData :=
  { p with
    name := b.name
    price := b.price
    description := b.description
    image := b.image
    brand := b.brand
    category := b.category
    countInStock := b.countInStock }

/-- `updateProduct` (lines 97–120): fetch, mutate, save, then
`cache.flushAll()`, then respond with the updated product; 404 when absent. -/
def updateProduct (pid : Nat) (b : UpdateBody) (dbOks : List Bool) (st : St) : HandlerOut :=
  if (callOk dbOks).1 then
    match findById st.db pid with
    | some p =>
      if (callOk (callOk dbOks).2).1 then
        { result := .ok ⟨200, none, .product (applyUpdate p b)⟩
          state := { st with db := saveReplace st.db (applyUpdate p b), cache := flushAll }
          events := [.dbRead, .dbWrite, .cacheFlush, .respond] }
      else { result := .err .dataAccess, state := st, events := [.dbRead] }
    | none => { result := .err (.notFound "Product not found"), state := st, events := [.dbRead] }
  else { result := .err .dataAccess, state := st, events := [] }

/-- `deleteProduct` (lines 125–137): fetch, `deleteOne`, then
`cache.flushAll()`, then respond with a message; 404 when absent. -/
def deleteProduct (pid : Nat) (dbOks : List Bool) (st : St) : HandlerOut :=
  if (callOk dbOks).1 then
    match findById st.db pid with
    | some p =>
      if (callOk (callOk dbOks).2).1 then
        { result := .ok ⟨200, none, .message "Product removed"⟩
          state := { st with db := st.db.eraseP (fun q => q.id == p.id), cache := flushAll }
          events := [.dbRead, .dbWrite, .cacheFlush, .respond] }
      else { result := .err .dataAccess, state := st, events := [.dbRead] }
    | none => { result := .err (.notFound "Product not found"), state := st, events := [.dbRead] }
  else { result := .err .dataAccess, state := st, events := [] }

/-- The review append and aggregate recomputation of lines 157–170. -/
def addReview (p : ProductData) (u : UserCtx) (b : ReviewBody) : ProductData :=
  let review : Review := { user := u.id, name := u.name, rating := b.rating, comment := b.comment }
  let reviews' := p.reviews ++ [review]
  { p with
    reviews := reviews'
    numReviews := reviews'.length
    rating := ((reviews'.map (fun r => (r.rating : Rat))).sum) / (reviews'.length : Rat) }

/-- `createProductReview` (lines 142–180): fetch; 404 when absent; 400 when
this user already reviewed; otherwise append the review, recompute the
aggregates, save, then `cache.flushAll()`, then respond `201`. -/
def createProductReview (pid : Nat) (u : UserCtx) (b : ReviewBody) (dbOks : List Bool) (st : St) : HandlerOut :=
  if (callOk dbOks).1 then
    match findById st.db pid with
    | some p =>
      if p.reviews.any (fun r => r.user == u.id) then
        { result := .err (.badRequest "Product already reviewed"), state := st, events := [.dbRead] }
      else
        if (callOk (callOk dbOks).2).1 then
          { result := .ok ⟨201, none, .message "Review added"⟩
            state := { st with db := saveReplace st.db (addReview p u b), cache := flushAll }
            events := [.dbRead, .dbWrite, .cacheFlush, .respond] }
        else { result := .err .dataAccess, state := st, events := [.dbRead] }
    | none => { result := .err (.notFound "Product not found"), state := st, events := [.dbRead] }
  else { result := .err .dataAccess, state := st, events := [] }

/-- Descending-by-rating insertion, modelling `.sort({ rating: -1 })`. -/
def insertByRating (p : ProductData) : List ProductData → List ProductData
  | [] => [p]
  | q :: t => if q.rating < p.rating then p :: q :: t else q :: insertByRating p t

/-- Stable descending sort by rating. -/
def sortByRatingDesc : List ProductData → List ProductData
  | [] => []
  | p :: t => insertByRating p (sortByRatingDesc t)

/-- `getTopProducts` (lines 185–201): fixed key `top_products`; on a live
cached entry answer it with `X-Cache: HIT`; otherwise fetch the three
top-rated products and store them in the cache as-is — no JSON round-trip —
and answer with `X-Cache: MISS`. -/
def getTopProducts (dbOks : List Bool) (st : St) : HandlerOut :=
  match cacheGet? st.cache st.now topKey with
  | some v =>
    { result := .ok ⟨200, some .hit, bodyOfCacheVal v⟩, state := st, events := [.respond] }
  | none =>
    if (callOk dbOks).1 then
      { result := .ok ⟨200, some .miss, .productList ((sortByRatingDesc st.db).take 3)⟩
        state := { st with
          cache := cacheSet st.cache topKey (.liveDocs ((sortByRatingDesc st.db).take 3)) st.now }
        events := [.dbRead, .cacheSet topKey, .respond] }
    else { result := .err .dataAccess, state := st, events := [] }

/-! ### Fixtures for concrete witnesses -/

/-- Whether an event is a cache mutation (`flushAll` or `set`). -/
def isCacheEv : Ev → Bool
  | .cacheFlush => true
  | .cacheSet _ => true
  | _ => false

/-- A concrete product with no reviews. -/
def P1 : ProductData :=
  { id := 1, user := 10, name := "Red Shirt", price := 5, image := "/images/shirt.jpg",
    brand := "Acme", category := "Apparel", countInStock := 3, numReviews := 0,
    rating := 2, description := "a red shirt", reviews := [] }

/-- A concrete product already reviewed by user 10. -/
def P2 : ProductData :=
  { id := 2, user := 11, name := "Blue Shoe", price := 9, image := "/images/shoe.jpg",
    brand := "Acme", category := "Apparel", countInStock := 1, numReviews := 1,
    rating := 4, description := "a blue shoe",
    reviews := [{ user := 10, name := "Alice", rating := 4, comment := "fine" }] }

/-- The default configuration (no environment overrides). -/
def cfg0 : Config := { paginationLimit := none, cacheTtlSeconds := none }

/-- A request with no query parameters. -/
def req0 : ListReq := { pageNumber := none, keyword := none }

/-- A concrete update body. -/
def b0 : UpdateBody :=
  { name := "Red Shirt v2", price := 6, description := "updated", image := "/images/shirt2.jpg",
    brand := "Acme", category := "Apparel", countInStock := 4 }

/-- A concrete reviewer who has not reviewed `P1`. -/
def u0 : UserCtx := { id := 12, name := "Bob" }

/-- A concrete review body. -/
def rb0 : ReviewBody := { rating := 5, comment := "nice" }

/-- A state with one product, an empty cache, at time 0. -/
def st0 : St := { db := [P1], cache := [], now := 0 }

/-- A state with two products, an empty cache, at time 0. -/
def st2 : St := { db := [P1, P2], cache := [], now := 0 }

/-- A state holding one cache entry whose TTL has already elapsed. -/
def stStale : St :=
  { db := [P1]
    cache := [(cacheKey 1 "", { value := .snapshot { products := [], page := 1, pages := 0 }, expiresAt := 100 })]
    now := 500 }

/-! ### Properties of decimal rendering and key derivation -/

theorem natDigsAux_acc (fuel : Nat) :
    ∀ n acc, n < fuel → natDigsAux fuel n acc = natDigsAux fuel n [] ++ acc := by
  induction fuel with
  | zero => intro n acc h; omega
  | succ f ih =>
    intro n acc h
    by_cases h10 : n < 10
    · simp [natDigsAux, h10]
    · have hdiv : n / 10 < n := Nat.div_lt_self (by omega) (by omega)
      have hf : n / 10 < f := by omega
      simp only [natDigsAux, if_neg h10]
      rw [ih (n / 10) (digitChar (n % 10) :: acc) hf,
          ih (n / 10) [digitChar (n % 10)] hf, List.append_assoc]
      rfl

theorem natDigsAux_fuel (fuel : Nat) :
    ∀ fuel' n, n < fuel → n < fuel' → natDigsAux fuel n [] = natDigsAux fuel' n [] := by
  induction fuel with
  | zero => intro fuel' n h; omega
  | succ f ih =>
    intro fuel' n h h'
    match fuel' with
    | 0 => omega
    | f' + 1 =>
      by_cases h10 : n < 10
      · simp [natDigsAux, h10]
      · have hdiv : n / 10 < n := Nat.div_lt_self (by omega) (by omega)
        simp only [natDigsAux, if_neg h10]
        rw [natDigsAux_acc f (n / 10) _ (by omega),
            natDigsAux_acc f' (n / 10) _ (by omega),
            ih f' (n / 10) (by omega) (by omega)]

theorem natDigs_spec (n : Nat) :
    natDigs n = if n < 10 then [digitChar n] else natDigs (n / 10) ++ [digitChar (n % 10)] := by
  by_cases h10 : n < 10
  · simp [natDigs, natDigsAux, h10]
  · have hdiv : n / 10 < n := Nat.div_lt_self (by omega) (by omega)
    simp only [natDigs, natDigsAux, if_neg h10]
    rw [natDigsAux_acc n (n / 10) _ (by omega),
        natDigsAux_fuel n (n / 10 + 1) (n / 10) (by omega) (by omega)]
    rfl

theorem digitChar_inj : ∀ d, d < 10 → ∀ e, e < 10 → digitChar d = digitChar e → d = e := by decide

theorem digitChar_ne_underscore : ∀ d, d < 10 → digitChar d ≠ '_' := by decide

theorem digitChar_ne_dash : ∀ d, d < 10 → digitChar d ≠ '-' := by decide

theorem natDigs_ne_nil (n : Nat) : natDigs n ≠ [] := by
  rw [natDigs_spec]
  split <;> simp

theorem mem_natDigs (n : Nat) : ∀ c ∈ natDigs n, ∃ d, d < 10 ∧ c = digitChar d := by
  induction n using Nat.strong_induction_on with
  | _ n ih =>
    intro c hc
    rw [natDigs_spec] at hc
    by_cases h10 : n < 10
    · rw [if_pos h10] at hc
      simp at hc
      exact ⟨n, h10, hc⟩
    · rw [if_neg h10] at hc
      have hdiv : n / 10 < n := Nat.div_lt_self (by omega) (by omega)
      rcases List.mem_append.mp hc with h | h
      · exact ih (n / 10) hdiv c h
      · simp at h
        exact ⟨n % 10, Nat.mod_lt _ (by omega), h⟩

theorem natDigs_no_underscore (n : Nat) : '_' ∉ natDigs n := by
  intro h
  obtain ⟨d, hd, he⟩ := mem_natDigs n '_' h
  exact digitChar_ne_underscore d hd he.symm

theorem natDigs_no_dash (n : Nat) : '-' ∉ natDigs n := by
  intro h
  obtain ⟨d, hd, he⟩ := mem_natDigs n '-' h
  exact digitChar_ne_dash d hd he.symm

theorem natDigs_inj : ∀ a b : Nat, natDigs a = natDigs b → a = b := by
  intro a
  induction a using Nat.strong_induction_on with
  | _ a ih =>
    intro b h
    rw [natDigs_spec a, natDigs_spec b] at h
    by_cases ha : a < 10 <;> by_cases hb : b < 10
    · rw [if_pos ha, if_pos hb] at h
      simp at h
      exact digitChar_inj a ha b hb h
    · rw [if_pos ha, if_neg hb] at h
      have := congrArg List.length h
      simp at this
      exact absurd this (natDigs_ne_nil _)
    · rw [if_neg ha, if_pos hb] at h
      have := congrArg List.length h
      simp at this
      exact absurd this (natDigs_ne_nil _)
    · rw [if_neg ha, if_neg hb] at h
      obtain ⟨h1, h2⟩ := List.append_inj' h (by simp)
      have hdiv : a / 10 < a := Nat.div_lt_self (by omega) (by omega)
      have e1 : a / 10 = b / 10 := ih (a / 10) hdiv (b / 10) h1
      have e2 : a % 10 = b % 10 := by
        have := List.cons.injEq (digitChar (a % 10)) [] (digitChar (b % 10)) [] ▸ h2
        simp at h2
        exact digitChar_inj _ (Nat.mod_lt _ (by omega)) _ (Nat.mod_lt _ (by omega)) h2
      omega

theorem intRepr_no_underscore (i : Int) : '_' ∉ intRepr i := by
  unfold intRepr
  split
  · intro h
    rcases List.mem_cons.mp h with h | h
    · exact absurd h.symm (by decide)
    · exact natDigs_no_underscore _ h
  · exact natDigs_no_underscore _

theorem intRepr_inj : ∀ i j : Int, intRepr i = intRepr j → i = j := by
  intro i j h
  unfold intRepr at h
  by_cases hi : i < 0 <;> by_cases hj : j < 0
  · rw [if_pos hi, if_pos hj] at h
    simp at h
    have := natDigs_inj _ _ h
    omega
  · rw [if_pos hi, if_neg hj] at h
    have : '-' ∈ natDigs j.toNat := h ▸ List.mem_cons_self '-' _
    exact absurd this (natDigs_no_dash _)
  · rw [if_neg hi, if_pos hj] at h
    have : '-' ∈ natDigs i.toNat := h.symm ▸ List.mem_cons_self '-' _
    exact absurd this (natDigs_no_dash _)
  · rw [if_neg hi, if_neg hj] at h
    have := natDigs_inj _ _ h
    omega

theorem split_at_sep :
    ∀ (l₁ l₂ m₁ m₂ : List Char), '_' ∉ l₁ → '_' ∉ l₂ →
      l₁ ++ '_' :: m₁ = l₂ ++ '_' :: m₂ → l₁ = l₂ ∧ m₁ = m₂ := by
  intro l₁
  induction l₁ with
  | nil =>
    intro l₂ m₁ m₂ _ h₂ h
    match l₂ with
    | [] => simpa using h
    | c :: t =>
      simp at h
      exact absurd (h.1 ▸ List.mem_cons_self c t) h₂
  | cons a as ih =>
    intro l₂ m₁ m₂ h₁ h₂ h
    match l₂ with
    | [] =>
      simp at h
      exact absurd (h.1 ▸ List.mem_cons_self a as) h₁
    | c :: t =>
      simp at h
      obtain ⟨hac, hrest⟩ := h
      have h₁' : '_' ∉ as := fun hm => h₁ (List.mem_cons_of_mem a hm)
      have h₂' : '_' ∉ t := fun hm => h₂ (List.mem_cons_of_mem c hm)
      obtain ⟨e1, e2⟩ := ih t m₁ m₂ h₁' h₂' hrest
      exact ⟨by rw [hac, e1], e2⟩

theorem string_data_append (a b : String) : (a ++ b).data = a.data ++ b.data := rfl

theorem string_data_injective : ∀ a b : String, a.data = b.data → a = b := by
  intro a b h
  exact congrArg String.mk h

theorem cacheKey_inj :
    ∀ (p : Int) (k : String) (p' : Int) (k' : String),
      cacheKey p k = cacheKey p' k' → p = p' ∧ k = k' := by
  intro p k p' k' h
  have hd : "products_page_".data ++ (intRepr p ++ ('_' :: ("keyword_".data ++ k.data)))
      = "products_page_".data ++ (intRepr p' ++ ('_' :: ("keyword_".data ++ k'.data))) := by
    have := congrArg String.data h
    simp only [cacheKey, string_data_append, intReprStr, List.append_assoc] at this
    exact this
  have hmid := List.append_cancel_left hd
  obtain ⟨h1, h2⟩ :=
    split_at_sep (intRepr p) (intRepr p') ("keyword_".data ++ k.data)
      ("keyword_".data ++ k'.data) (intRepr_no_underscore p) (intRepr_no_underscore p') hmid
  refine ⟨intRepr_inj p p' h1, ?_⟩
  exact string_data_injective k k' (List.append_cancel_left h2)

theorem cacheKey_ne_top : ∀ (p : Int) (k : String), cacheKey p k ≠ topKey := by
  intro p k h
  have h0 : (some 'p' : Option Char) = some 't' := congrArg (fun s => s.data.head?) h
  exact absurd h0 (by decide)

/-! ### Read-path unfolding lemmas -/

theorem getProducts_hit (cfg : Config) (req : ListReq) (dbOks : List Bool) (st : St) (v : CacheVal)
    (h : cacheGet? st.cache st.now (cacheKey (pageOf req.pageNumber) (keywordStrOf req.keyword)) = some v) :
    getProducts cfg req dbOks st =
      { result := .ok ⟨200, some .hit, bodyOfCacheVal v⟩, state := st, events := [.respond] } := by
  unfold getProducts
  rw [h]

theorem getProducts_miss (cfg : Config) (req : ListReq) (st : St)
    (h : cacheGet? st.cache st.now (cacheKey (pageOf req.pageNumber) (keywordStrOf req.keyword)) = none) :
    getProducts cfg req [] st =
      { result := .ok ⟨200, some .miss, .productsPage (freshListResponse cfg req st.db)⟩
        state := { st with
          cache := cacheSet st.cache (cacheKey (pageOf req.pageNumber) (keywordStrOf req.keyword))
            (.snapshot (freshListResponse cfg req st.db)) st.now }
        events := [.dbRead, .dbRead,
          .cacheSet (cacheKey (pageOf req.pageNumber) (keywordStrOf req.keyword)), .respond] } := by
  unfold getProducts
  rw [h]
  rfl

theorem getTopProducts_hit (dbOks : List Bool) (st : St) (v : CacheVal)
    (h : cacheGet? st.cache st.now topKey = some v) :
    getTopProducts dbOks st =
      { result := .ok ⟨200, some .hit, bodyOfCacheVal v⟩, state := st, events := [.respond] } := by
  unfold getTopProducts
  rw [h]

theorem getTopProducts_miss (st : St) (h : cacheGet? st.cache st.now topKey = none) :
    getTopProducts [] st =
      { result := .ok ⟨200, some .miss, .productList ((sortByRatingDesc st.db).take 3)⟩
        state := { st with cache := cacheSet st.cache topKey (.liveDocs ((sortByRatingDesc st.db).take 3)) st.now }
        events := [.dbRead, .cacheSet topKey, .respond] } := by
  unfold getTopProducts
  rw [h]
  rfl

/-! ### Claims -/

/-- C9: the single-product read `getProductById` performs no cache
interaction at all: whether it succeeds, fails with NotFound, or fails on the
data-access call, the whole state (in particular the CacheStore contents) is
unchanged and its effect trace contains no cache operation. -/
theorem c9_getProductById_no_cache_interaction :
    ∀ (pid : Nat) (dbOks : List Bool) (st : St),
      (getProductById pid dbOks st).state = st
      ∧ (getProductById pid dbOks st).state.cache = st.cache
      ∧ ((getProductById pid dbOks st).events.all fun e => !isCacheEv e) = true := by
  intro pid dbOks st
  unfold getProductById
  by_cases h1 : (callOk dbOks).1
  · rw [if_pos h1]
    cases h2 : findById st.db pid <;> simp [isCacheEv]
  · rw [if_neg h1]
    simp [isCacheEv]

/-- C7, counterexample: the cache TTL is not overridable via the environment.
Setting the TTL configuration to 60 seconds still yields the hard-coded 300
of `new NodeCache({ stdTTL: 300 })`, identical to the unconfigured value. -/
theorem c7_counterexample :
    stdTTLOfCfg { paginationLimit := none, cacheTtlSeconds := some 60 } = 300
    ∧ stdTTLOfCfg { paginationLimit := none, cacheTtlSeconds := some 60 }
        = stdTTLOfCfg { paginationLimit := none, cacheTtlSeconds := none } :=
  ⟨rfl, rfl⟩

/-- C7, amended: the page size is overridable via `PAGINATION_LIMIT` and
defaults to 8 when absent; the cache TTL is the built-in 300 seconds (in the
5-minute range) regardless of configuration, since line 6 hard-codes it. -/
theorem c7_config_defaults :
    (∀ c : Config, c.paginationLimit = none → pageSizeOfCfg c = 8)
    ∧ (∀ n : Nat, pageSizeOfCfg { paginationLimit := some n, cacheTtlSeconds := none } = n)
    ∧ (∀ c : Config, stdTTLOfCfg c = 300)
    ∧ stdTTL = 5 * 60 := by
  refine ⟨fun c h => ?_, fun n => rfl, fun c => rfl, rfl⟩
  simp [pageSizeOfCfg, h]

/-- C7, witness for the amended theorem at concrete configurations. -/
theorem c7_config_defaults_witness :
    pageSizeOfCfg { paginationLimit := none, cacheTtlSeconds := none } = 8
    ∧ pageSizeOfCfg { paginationLimit := some 20, cacheTtlSeconds := none } = 20
    ∧ stdTTLOfCfg { paginationLimit := none, cacheTtlSeconds := some 60 } = 300 :=
  ⟨c7_config_defaults.1 _ rfl, c7_config_defaults.2.1 20, c7_config_defaults.2.2.1 _⟩

/-- C4: cache-key derivation is injective on normalized `(page, keyword)`
pairs — equal pairs give equal keys, distinct pairs give distinct keys — and
a `getProducts` key never collides with the `getTopProducts` key
`top_products`. -/
theorem c4_key_derivation_injective :
    ∀ (p : Int) (k : String) (p' : Int) (k' : String),
      (cacheKey p k = cacheKey p' k' ↔ p = p' ∧ k = k')
      ∧ (cacheKey p k = topKey → False) := by
  intro p k p' k'
  refine ⟨⟨cacheKey_inj p k p' k', ?_⟩, cacheKey_ne_top p k⟩
  rintro ⟨rfl, rfl⟩
  rfl

/-- C4, witness: at concrete keys, distinct keywords give distinct keys and
the key differs from `top_products`. -/
theorem c4_key_derivation_injective_witness :
    ((2 : Int) = 2 ∧ "shirt" = "shirt")
    ∧ (cacheKey 2 "shirt" = topKey → False) :=
  ⟨(c4_key_derivation_injective 2 "shirt" 2 "shirt").1.mp rfl,
   (c4_key_derivation_injective 2 "shirt" 2 "shirt").2⟩

/-- C2, counterexample: on a concrete state, the value `getTopProducts`
places in the cache is the raw data-access result (`liveDocs`), not a deep
reference-free snapshot — refuting the claim for the top-products read path. -/
theorem c2_counterexample :
    cacheFind? (getTopProducts [] st0).state.cache topKey
      = some { value := .liveDocs [P1], expiresAt := 300 }
    ∧ isSnapshot (.liveDocs [P1]) = false := by
  refine ⟨?_, rfl⟩
  decide

/-- C2, amended: only the paginated list path stores a deep JSON snapshot
(the `JSON.parse(JSON.stringify(·))` of line 46); `getTopProducts` stores the
raw result of the data-access call without that normalization. -/
theorem c2_snapshot_only_on_list_path :
    (∀ (cfg : Config) (req : ListReq) (st : St),
      cacheGet? st.cache st.now (cacheKey (pageOf req.pageNumber) (keywordStrOf req.keyword)) = none →
      (getProducts cfg req [] st).state.cache
        = cacheSet st.cache (cacheKey (pageOf req.pageNumber) (keywordStrOf req.keyword))
            (.snapshot (freshListResponse cfg req st.db)) st.now)
    ∧ (∀ st : St,
      cacheGet? st.cache st.now topKey = none →
      (getTopProducts [] st).state.cache
        = cacheSet st.cache topKey (.liveDocs ((sortByRatingDesc st.db).take 3)) st.now) := by
  constructor
  · intro cfg req st h
    rw [getProducts_miss cfg req st h]
  · intro st h
    rw [getTopProducts_miss st h]

/-- C2, witness for the amended theorem: both store equations at a concrete
state with an empty cache. -/
theorem c2_snapshot_only_on_list_path_witness :
    (getProducts cfg0 req0 [] st0).state.cache
      = cacheSet st0.cache (cacheKey (pageOf req0.pageNumber) (keywordStrOf req0.keyword))
          (.snapshot (freshListResponse cfg0 req0 st0.db)) st0.now
    ∧ (getTopProducts [] st0).state.cache
      = cacheSet st0.cache topKey (.liveDocs ((sortByRatingDesc st0.db).take 3)) st0.now :=
  ⟨c2_snapshot_only_on_list_path.1 cfg0 req0 st0 (by decide),
   c2_snapshot_only_on_list_path.2 st0 (by decide)⟩

/-- C10: a `pageNumber` that is missing, non-numeric, or `0` normalizes to
page 1, and a missing keyword normalizes to the empty string, so such
requests derive the same cache key and the same backing-query response as an
explicit `pageNumber=1` with an explicitly empty keyword. -/
theorem c10_parameter_normalization :
    pageOf none = 1
    ∧ (∀ s : String, jsNumber? s = none → pageOf (some s) = 1)
    ∧ (∀ s : String, jsNumber? s = some 0 → pageOf (some s) = 1)
    ∧ keywordStrOf none = ""
    ∧ (∀ pn : Option String,
        (pn = none ∨ ∃ s, pn = some s ∧ (jsNumber? s = none ∨ jsNumber? s = some 0)) →
        cacheKey (pageOf pn) (keywordStrOf none)
          = cacheKey (pageOf (some "1")) (keywordStrOf (some ""))
        ∧ ∀ (cfg : Config) (db : List ProductData),
            freshListResponse cfg { pageNumber := pn, keyword := none } db
              = freshListResponse cfg { pageNumber := some "1", keyword := some "" } db) := by
  have hone : pageOf (some "1") = 1 := by decide
  refine ⟨rfl, fun s h => ?_, fun s h => ?_, rfl, fun pn h => ?_⟩
  · simp [pageOf, h]
  · simp [pageOf, h]
  · have hpn : pageOf pn = 1 := by
      rcases h with rfl | ⟨s, rfl, h | h⟩
      · rfl
      · simp [pageOf, h]
      · simp [pageOf, h]
    constructor
    · rw [hpn, hone]
      rfl
    · intro cfg db
      simp [freshListResponse, hpn, hone, matchedProducts, keywordFilter]

/-- C10, witness: concrete instances — missing, `"abc"` (non-numeric) and
`"0"` all normalize to page 1 and agree with the explicit
`pageNumber=1, keyword=""` request on key and backing query. -/
theorem c10_parameter_normalization_witness :
    pageOf (some "abc") = 1
    ∧ pageOf (some "0") = 1
    ∧ (cacheKey (pageOf (some "abc")) (keywordStrOf none)
        = cacheKey (pageOf (some "1")) (keywordStrOf (some ""))
      ∧ ∀ (cfg : Config) (db : List ProductData),
          freshListResponse cfg { pageNumber := some "abc", keyword := none } db
            = freshListResponse cfg { pageNumber := some "1", keyword := some "" } db) :=
  ⟨c10_parameter_normalization.2.1 "abc" (by decide),
   c10_parameter_normalization.2.2.1 "0" (by decide),
   c10_parameter_normalization.2.2.2.2 (some "abc") (Or.inr ⟨"abc", rfl, Or.inl (by decide)⟩)⟩

/-- C8, counterexample: on a concrete miss, the list response body's keys are
`products`, `page`, `pages` — the body contains neither an `items` nor a
`totalPages` field, refuting the claimed field names. -/
theorem c8_counterexample :
    (getProducts cfg0 req0 [] st0).result
      = .ok ⟨200, some .miss, .productsPage { products := [P1], page := 1, pages := 1 }⟩
    ∧ bodyKeys? (.productsPage { products := [P1], page := 1, pages := 1 })
        = some ["products", "page", "pages"]
    ∧ (["products", "page", "pages"].contains "items") = false
    ∧ (["products", "page", "pages"].contains "totalPages") = false := by
  refine ⟨?_, rfl, rfl, rfl⟩
  decide

/-- C8, amended: the list response body is `{ products, page, pages }` with
`pages = Math.ceil(count / pageSize)` over the matching count, and every
successful `getProducts` response carries the `X-Cache` diagnostic header
(`MISS` on the fetch path, `HIT` when answered from a stored snapshot). -/
theorem c8_response_shape :
    (∀ (cfg : Config) (req : ListReq) (st : St),
      cacheGet? st.cache st.now (cacheKey (pageOf req.pageNumber) (keywordStrOf req.keyword)) = none →
      (getProducts cfg req [] st).result
        = .ok ⟨200, some .miss, .productsPage (freshListResponse cfg req st.db)⟩
      ∧ bodyKeys? (.productsPage (freshListResponse cfg req st.db))
          = some ["products", "page", "pages"]
      ∧ (freshListResponse cfg req st.db).pages
          = jsCeilDiv (matchedProducts req.keyword st.db).length (pageSizeOfCfg cfg))
    ∧ (∀ (cfg : Config) (req : ListReq) (dbOks : List Bool) (st : St) (r : ProductsResponse),
      cacheGet? st.cache st.now (cacheKey (pageOf req.pageNumber) (keywordStrOf req.keyword))
          = some (.snapshot r) →
      (getProducts cfg req dbOks st).result = .ok ⟨200, some .hit, .productsPage r⟩) := by
  constructor
  · intro cfg req st h
    rw [getProducts_miss cfg req st h]
    exact ⟨rfl, rfl, rfl⟩
  · intro cfg req dbOks st r h
    rw [getProducts_hit cfg req dbOks st _ h]
    rfl

/-- C8, witness for the amended theorem: the concrete miss, and the hit
against the state the miss produced. -/
theorem c8_response_shape_witness :
    ((getProducts cfg0 req0 [] st0).result
        = .ok ⟨200, some .miss, .productsPage (freshListResponse cfg0 req0 st0.db)⟩
      ∧ bodyKeys? (.productsPage (freshListResponse cfg0 req0 st0.db))
          = some ["products", "page", "pages"]
      ∧ (freshListResponse cfg0 req0 st0.db).pages
          = jsCeilDiv (matchedProducts req0.keyword st0.db).length (pageSizeOfCfg cfg0))
    ∧ (getProducts cfg0 req0 [] (getProducts cfg0 req0 [] st0).state).result
        = .ok ⟨200, some .hit, .productsPage (freshListResponse cfg0 req0 st0.db)⟩ :=
  ⟨c8_response_shape.1 cfg0 req0 st0 (by decide),
   c8_response_shape.2 cfg0 req0 [] (getProducts cfg0 req0 [] st0).state
     (freshListResponse cfg0 req0 st0.db) (by decide)⟩

/-- C1: every mutation handler, on its success path, performs the data-access
write, then `cache.flushAll()`, then the success response — in that order —
leaving the cache empty; and against any flushed cache a re-issued list read
is a miss whose payload is recomputed from the post-mutation database. -/
theorem c1_mutations_flush_after_commit :
    (∀ (u i : Nat) (st : St),
      createProduct u i [] st =
        { result := .ok ⟨201, none, .product (sampleProduct u i)⟩
          state := { st with db := st.db ++ [sampleProduct u i], cache := flushAll }
          events := [.dbWrite, .cacheFlush, .respond] })
    ∧ (∀ (pid : Nat) (b : UpdateBody) (st : St) (p : ProductData),
      findById st.db pid = some p →
      updateProduct pid b [] st =
        { result := .ok ⟨200, none, .product (applyUpdate p b)⟩
          state := { st with db := saveReplace st.db (applyUpdate p b), cache := flushAll }
          events := [.dbRead, .dbWrite, .cacheFlush, .respond] })
    ∧ (∀ (pid : Nat) (st : St) (p : ProductData),
      findById st.db pid = some p →
      deleteProduct pid [] st =
        { result := .ok ⟨200, none, .message "Product removed"⟩
          state := { st with db := st.db.eraseP (fun q => q.id == p.id), cache := flushAll }
          events := [.dbRead, .dbWrite, .cacheFlush, .respond] })
    ∧ (∀ (pid : Nat) (u : UserCtx) (b : ReviewBody) (st : St) (p : ProductData),
      findById st.db pid = some p →
      (p.reviews.any fun r => r.user == u.id) = false →
      createProductReview pid u b [] st =
        { result := .ok ⟨201, none, .message "Review added"⟩
          state := { st with db := saveReplace st.db (addReview p u b), cache := flushAll }
          events := [.dbRead, .dbWrite, .cacheFlush, .respond] })
    ∧ (∀ (cfg : Config) (req : ListReq) (st' : St),
      st'.cache = flushAll →
      (getProducts cfg req [] st').result
        = .ok ⟨200, some .miss, .productsPage (freshListResponse cfg req st'.db)⟩) := by
  refine ⟨fun u i st => rfl, fun pid b st p h => ?_, fun pid st p h => ?_,
    fun pid u b st p h hdup => ?_, fun cfg req st' hc => ?_⟩
  · unfold updateProduct
    rw [h]
    rfl
  · unfold deleteProduct
    rw [h]
    rfl
  · unfold createProductReview
    rw [h]
    simp only [hdup, callOk, Bool.false_eq_true, if_false]
    rfl
  · have h0 : cacheGet? st'.cache st'.now
        (cacheKey (pageOf req.pageNumber) (keywordStrOf req.keyword)) = none := by
      rw [hc]
      rfl
    rw [getProducts_miss cfg req st' h0]

/-- C1, witness: all five conjuncts at concrete inputs, including the re-read
against the state a successful `createProduct` leaves behind. -/
theorem c1_mutations_flush_after_commit_witness :
    createProduct 10 7 [] st0 =
      { result := .ok ⟨201, none, .product (sampleProduct 10 7)⟩
        state := { st0 with db := st0.db ++ [sampleProduct 10 7], cache := flushAll }
        events := [.dbWrite, .cacheFlush, .respond] }
    ∧ updateProduct 1 b0 [] st0 =
      { result := .ok ⟨200, none, .product (applyUpdate P1 b0)⟩
        state := { st0 with db := saveReplace st0.db (applyUpdate P1 b0), cache := flushAll }
        events := [.dbRead, .dbWrite, .cacheFlush, .respond] }
    ∧ deleteProduct 1 [] st0 =
      { result := .ok ⟨200, none, .message "Product removed"⟩
        state := { st0 with db := st0.db.eraseP (fun q => q.id == P1.id), cache := flushAll }
        events := [.dbRead, .dbWrite, .cacheFlush, .respond] }
    ∧ createProductReview 1 u0 rb0 [] st0 =
      { result := .ok ⟨201, none, .message "Review added"⟩
        state := { st0 with db := saveReplace st0.db (addReview P1 u0 rb0), cache := flushAll }
        events := [.dbRead, .dbWrite, .cacheFlush, .respond] }
    ∧ (getProducts cfg0 req0 [] (createProduct 10 7 [] st0).state).result
      = .ok ⟨200, some .miss,
          .productsPage (freshListResponse cfg0 req0 (createProduct 10 7 [] st0).state.db)⟩ :=
  ⟨c1_mutations_flush_after_commit.1 10 7 st0,
   c1_mutations_flush_after_commit.2.1 1 b0 st0 P1 (by decide),
   c1_mutations_flush_after_commit.2.2.1 1 st0 P1 (by decide),
   c1_mutations_flush_after_commit.2.2.2.1 1 u0 rb0 st0 P1 (by decide) (by decide),
   c1_mutations_flush_after_commit.2.2.2.2 cfg0 req0 _ (by decide)⟩

/-- C3: every failed operation — a read whose data-access call throws, or a
mutation failing with NotFound, DuplicateReview, or a data-access error
(including a failing `save` after a successful fetch) — returns an error with
the state, and in particular the cache, exactly as it was, and performs no
cache operation. -/
theorem c3_failures_leave_cache_untouched :
    (∀ (cfg : Config) (req : ListReq) (st : St),
      cacheGet? st.cache st.now (cacheKey (pageOf req.pageNumber) (keywordStrOf req.keyword)) = none →
      getProducts cfg req [false] st = { result := .err .dataAccess, state := st, events := [] }
      ∧ getProducts cfg req [true, false] st
          = { result := .err .dataAccess, state := st, events := [.dbRead] })
    ∧ (∀ st : St,
      cacheGet? st.cache st.now topKey = none →
      getTopProducts [false] st = { result := .err .dataAccess, state := st, events := [] })
    ∧ (∀ (pid : Nat) (st : St),
      getProductById pid [false] st = { result := .err .dataAccess, state := st, events := [] })
    ∧ (∀ (u i : Nat) (st : St),
      createProduct u i [false] st = { result := .err .dataAccess, state := st, events := [] })
    ∧ (∀ (pid : Nat) (b : UpdateBody) (st : St),
      findById st.db pid = none →
      updateProduct pid b [] st
        = { result := .err (.notFound "Product not found"), state := st, events := [.dbRead] })
    ∧ (∀ (pid : Nat) (b : UpdateBody) (st : St) (p : ProductData),
      findById st.db pid = some p →
      updateProduct pid b [true, false] st
        = { result := .err .dataAccess, state := st, events := [.dbRead] })
    ∧ (∀ (pid : Nat) (st : St),
      findById st.db pid = none →
      deleteProduct pid [] st
        = { result := .err (.notFound "Product not found"), state := st, events := [.dbRead] })
    ∧ (∀ (pid : Nat) (st : St) (p : ProductData),
      findById st.db pid = some p →
      deleteProduct pid [true, false] st
        = { result := .err .dataAccess, state := st, events := [.dbRead] })
    ∧ (∀ (pid : Nat) (u : UserCtx) (b : ReviewBody) (st : St),
      findById st.db pid = none →
      createProductReview pid u b [] st
        = { result := .err (.notFound "Product not found"), state := st, events := [.dbRead] })
    ∧ (∀ (pid : Nat) (u : UserCtx) (b : ReviewBody) (st : St) (p : ProductData),
      findById st.db pid = some p →
      (p.reviews.any fun r => r.user == u.id) = true →
      createProductReview pid u b [] st
        = { result := .err (.badRequest "Product already reviewed"), state := st, events := [.dbRead] })
    ∧ (∀ (pid : Nat) (u : UserCtx) (b : ReviewBody) (st : St) (p : ProductData),
      findById st.db pid = some p →
      (p.reviews.any fun r => r.user == u.id) = false →
      createProductReview pid u b [true, false] st
        = { result := .err .dataAccess, state := st, events := [.dbRead] }) := by
  refine ⟨fun cfg req st h => ⟨?_, ?_⟩, fun st h => ?_, fun pid st => rfl, fun u i st => rfl,
    fun pid b st h => ?_, fun pid b st p h => ?_, fun pid st h => ?_, fun pid st p h => ?_,
    fun pid u b st h => ?_, fun pid u b st p h hdup => ?_, fun pid u b st p h hdup => ?_⟩
  · unfold getProducts
    rw [h]
    rfl
  · unfold getProducts
    rw [h]
    rfl
  · unfold getTopProducts
    rw [h]
    rfl
  · unfold updateProduct
    rw [h]
    rfl
  · unfold updateProduct
    rw [h]
    rfl
  · unfold deleteProduct
    rw [h]
    rfl
  · unfold deleteProduct
    rw [h]
    rfl
  · unfold createProductReview
    rw [h]
    rfl
  · unfold createProductReview
    rw [h]
    simp only [hdup, if_true]
    rfl
  · unfold createProductReview
    rw [h]
    simp only [hdup, callOk, Bool.false_eq_true, if_false]
    rfl

/-- C3, witness: every failure scenario at concrete inputs — throwing reads,
NotFound and DuplicateReview mutations, and a failing `save` after a
successful fetch — leaves the concrete state untouched. -/
theorem c3_failures_leave_cache_untouched_witness :
    getProducts cfg0 req0 [false] st0 = { result := .err .dataAccess, state := st0, events := [] }
    ∧ getProducts cfg0 req0 [true, false] st0
        = { result := .err .dataAccess, state := st0, events := [.dbRead] }
    ∧ getTopProducts [false] st0 = { result := .err .dataAccess, state := st0, events := [] }
    ∧ getProductById 99 [false] st0 = { result := .err .dataAccess, state := st0, events := [] }
    ∧ createProduct 10 7 [false] st0 = { result := .err .dataAccess, state := st0, events := [] }
    ∧ updateProduct 99 b0 [] st0
        = { result := .err (.notFound "Product not found"), state := st0, events := [.dbRead] }
    ∧ updateProduct 1 b0 [true, false] st0
        = { result := .err .dataAccess, state := st0, events := [.dbRead] }
    ∧ deleteProduct 99 [] st0
        = { result := .err (.notFound "Product not found"), state := st0, events := [.dbRead] }
    ∧ deleteProduct 1 [true, false] st0
        = { result := .err .dataAccess, state := st0, events := [.dbRead] }
    ∧ createProductReview 99 u0 rb0 [] st0
        = { result := .err (.notFound "Product not found"), state := st0, events := [.dbRead] }
    ∧ createProductReview 2 { id := 10, name := "Alice" } rb0 [] st2
        = { result := .err (.badRequest "Product already reviewed"), state := st2, events := [.dbRead] }
    ∧ createProductReview 1 u0 rb0 [true, false] st0
        = { result := .err .dataAccess, state := st0, events := [.dbRead] } :=
  ⟨(c3_failures_leave_cache_untouched.1 cfg0 req0 st0 (by decide)).1,
   (c3_failures_leave_cache_untouched.1 cfg0 req0 st0 (by decide)).2,
   c3_failures_leave_cache_untouched.2.1 st0 (by decide),
   c3_failures_leave_cache_untouched.2.2.1 99 st0,
   c3_failures_leave_cache_untouched.2.2.2.1 10 7 st0,
   c3_failures_leave_cache_untouched.2.2.2.2.1 99 b0 st0 (by decide),
   c3_failures_leave_cache_untouched.2.2.2.2.2.1 1 b0 st0 P1 (by decide),
   c3_failures_leave_cache_untouched.2.2.2.2.2.2.1 99 st0 (by decide),
   c3_failures_leave_cache_untouched.2.2.2.2.2.2.2.1 1 st0 P1 (by decide),
   c3_failures_leave_cache_untouched.2.2.2.2.2.2.2.2.1 99 u0 rb0 st0 (by decide),
   c3_failures_leave_cache_untouched.2.2.2.2.2.2.2.2.2.1 2 { id := 10, name := "Alice" } rb0 st2 P2
     (by decide) (by decide),
   c3_failures_leave_cache_untouched.2.2.2.2.2.2.2.2.2.2 1 u0 rb0 st0 P1 (by decide) (by decide)⟩

/-- C5: starting from a state with no live entry for the derived key, a first
list read is a MISS, and a second identical read issued at any time before
the first entry's TTL elapses, with no intervening mutation, is a HIT whose
payload is identical to the first response's payload. -/
theorem c5_hit_determinism :
    ∀ (cfg : Config) (req : ListReq) (st : St) (t2 : Nat),
      cacheGet? st.cache st.now (cacheKey (pageOf req.pageNumber) (keywordStrOf req.keyword)) = none →
      t2 < st.now + stdTTL →
      (getProducts cfg req [] st).result
        = .ok ⟨200, some .miss, .productsPage (freshListResponse cfg req st.db)⟩
      ∧ (getProducts cfg req []
            { db := st.db, cache := (getProducts cfg req [] st).state.cache, now := t2 }).result
        = .ok ⟨200, some .hit, .productsPage (freshListResponse cfg req st.db)⟩ := by
  intro cfg req st t2 h1 h2
  have hm := getProducts_miss cfg req st h1
  have hcache : (getProducts cfg req [] st).state.cache
      = cacheSet st.cache (cacheKey (pageOf req.pageNumber) (keywordStrOf req.keyword))
          (.snapshot (freshListResponse cfg req st.db)) st.now := by
    rw [hm]
  have hget : cacheGet?
      (cacheSet st.cache (cacheKey (pageOf req.pageNumber) (keywordStrOf req.keyword))
        (.snapshot (freshListResponse cfg req st.db)) st.now)
      t2 (cacheKey (pageOf req.pageNumber) (keywordStrOf req.keyword))
      = some (.snapshot (freshListResponse cfg req st.db)) := by
    simp [cacheGet?, cacheFind?, cacheSet, h2]
  constructor
  · rw [hm]
  · rw [hcache]
    rw [getProducts_hit cfg req []
      { db := st.db
        cache := cacheSet st.cache (cacheKey (pageOf req.pageNumber) (keywordStrOf req.keyword))
          (.snapshot (freshListResponse cfg req st.db)) st.now
        now := t2 }
      (.snapshot (freshListResponse cfg req st.db)) hget]
    rfl

/-- C5, witness: the concrete MISS-then-HIT pair at time 0 and time 100, with
byte-identical payloads. -/
theorem c5_hit_determinism_witness :
    (getProducts cfg0 req0 [] st0).result
      = .ok ⟨200, some .miss, .productsPage (freshListResponse cfg0 req0 st0.db)⟩
    ∧ (getProducts cfg0 req0 []
          { db := st0.db, cache := (getProducts cfg0 req0 [] st0).state.cache, now := 100 }).result
      = .ok ⟨200, some .hit, .productsPage (freshListResponse cfg0 req0 st0.db)⟩ :=
  c5_hit_determinism cfg0 req0 st0 100 (by decide) (by decide)

/-- C6: an entry whose TTL has elapsed (`expiresAt ≤ now`) is treated as
absent — `has` is false and `get` behaves as absent — and a list read in that
situation takes the full MISS path: it refetches from the database and
replaces the expired entry with a fresh one whose expiry clock restarts at
`now + stdTTL` (the expired entry is neither resurrected nor extended). -/
theorem c6_ttl_expiry :
    (∀ (c : CacheMap) (k : String) (e : CacheEntry) (now : Nat),
      cacheFind? c k = some e → e.expiresAt ≤ now →
      cacheHas c now k = false ∧ cacheGet? c now k = none)
    ∧ (∀ (cfg : Config) (req : ListReq) (st : St) (e : CacheEntry),
      cacheFind? st.cache (cacheKey (pageOf req.pageNumber) (keywordStrOf req.keyword)) = some e →
      e.expiresAt ≤ st.now →
      getProducts cfg req [] st =
        { result := .ok ⟨200, some .miss, .productsPage (freshListResponse cfg req st.db)⟩
          state := { st with
            cache := cacheSet st.cache (cacheKey (pageOf req.pageNumber) (keywordStrOf req.keyword))
              (.snapshot (freshListResponse cfg req st.db)) st.now }
          events := [.dbRead, .dbRead,
            .cacheSet (cacheKey (pageOf req.pageNumber) (keywordStrOf req.keyword)), .respond] }) := by
  have hget0 : ∀ (c : CacheMap) (k : String) (e : CacheEntry) (now : Nat),
      cacheFind? c k = some e → e.expiresAt ≤ now → cacheGet? c now k = none := by
    intro c k e now hf he
    simp [cacheGet?, hf, Nat.not_lt.mpr he]
  refine ⟨fun c k e now hf he => ⟨?_, hget0 c k e now hf he⟩, fun cfg req st e hf he => ?_⟩
  · simp [cacheHas, hget0 c k e now hf he]
  · exact getProducts_miss cfg req st (hget0 _ _ _ _ hf he)

/-- C6, witness: at the concrete stale state (entry expired at 100, read at
500) the entry counts as absent and the read repopulates with a fresh fetch. -/
theorem c6_ttl_expiry_witness :
    (cacheHas stStale.cache stStale.now (cacheKey 1 "") = false
      ∧ cacheGet? stStale.cache stStale.now (cacheKey 1 "") = none)
    ∧ getProducts cfg0 req0 [] stStale =
        { result := .ok ⟨200, some .miss, .productsPage (freshListResponse cfg0 req0 stStale.db)⟩
          state := { stStale with
            cache := cacheSet stStale.cache
              (cacheKey (pageOf req0.pageNumber) (keywordStrOf req0.keyword))
              (.snapshot (freshListResponse cfg0 req0 stStale.db)) stStale.now }
          events := [.dbRead, .dbRead,
            .cacheSet (cacheKey (pageOf req0.pageNumber) (keywordStrOf req0.keyword)), .respond] } :=
  ⟨c6_ttl_expiry.1 stStale.cache (cacheKey 1 "")
      { value := .snapshot { products := [], page := 1, pages := 0 }, expiresAt := 100 }
      stStale.now (by decide) (by decide),
   c6_ttl_expiry.2 cfg0 req0 stStale
      { value := .snapshot { products := [], page := 1, pages := 0 }, expiresAt := 100 }
      (by decide) (by decide)⟩

end ECommerceEco
